import Mathlib

/-!
Shallow embedding of the weather aggregation core of `src/api/weather_api.py`
(weather-code mapping, UV display, daily normalizer, hourly interpolator,
current-conditions parser and the `get_weather_info` orchestrator), together
with theorems settling the specification claims about it.

Conventions of the embedding:
* Python `float` values are modelled as `ℚ`; machine time is passed in
  explicitly (`nowTs`, `nowHour`, `currentHour`) since the source reads the
  ambient clock.
* A value that Python may set to `None` is an `Option`.
* Code that can raise an exception which escapes the enclosing function is
  modelled in `Except PyErr`; exceptions that the source catches locally are
  resolved inside the corresponding definition, exactly as the source's
  `try/except` blocks do.
-/

namespace WeatherApp

/-- Exceptions that the Python source can raise; `keyError` also stands for
`IndexError`, since the source always catches the two together. -/
inductive PyErr where
  | keyError
  | nameError
  | typeError
deriving DecidableEq

/-- Python `int()` truncation of a rational toward zero. -/
def pyTrunc (q : ℚ) : Int :=
  if 0 ≤ q then q.floor else -((-q).floor)

/-- Round a rational to the nearest integer, ties to the even integer
(the rounding used by Python `format`). -/
def roundHalfEven (q : ℚ) : Int :=
  let f : Int := q.floor
  let r : ℚ := q - (f : ℚ)
  if r < 1/2 then f
  else if 1/2 < r then f + 1
  else if f % 2 = 0 then f else f + 1

/-- Python `"%.1f" % q`: the value rendered with exactly one decimal digit. -/
def formatOneDecimal (q : ℚ) : String :=
  let n := roundHalfEven (q * 10)
  let s := n.natAbs
  (if n < 0 then "-" else "") ++ toString (s / 10) ++ "." ++ toString (s % 10)

/-- `uv_index_to_display` (weather_api.py lines 71-94): numeric value plus
WHO category, or "N/A" when the value is absent. -/
def uv_index_to_display (uv : Option ℚ) : String :=
  match uv with
  | none => "N/A"
  | some uv =>
    let cat : String :=
      if uv ≤ 2 then "Low"
      else if uv ≤ 5 then "Moderate"
      else if uv ≤ 7 then "High"
      else if uv ≤ 10 then "Very High"
      else "Extreme"
    formatOneDecimal uv ++ " (" ++ cat ++ ")"

/-- `wmo_to_condition` (weather_api.py lines 375-391): WMO weather code to
condition string; the argument is `none` when the code is Python `None`. -/
def wmo_to_condition (code : Option Int) : String :=
  match code with
  | none => "clear"
  | some c =>
    if c = 0 then "clear"
    else if c = 1 ∨ c = 2 ∨ c = 3 then "clouds"
    else if c = 45 ∨ c = 48 then "fog"
    else if c = 51 ∨ c = 53 ∨ c = 55 ∨ c = 56 ∨ c = 57 ∨ c = 61 ∨ c = 63 ∨
            c = 65 ∨ c = 66 ∨ c = 67 ∨ c = 80 ∨ c = 81 ∨ c = 82 then "rain"
    else if c = 71 ∨ c = 73 ∨ c = 75 ∨ c = 77 ∨ c = 85 ∨ c = 86 then "snow"
    else if c = 95 ∨ c = 96 ∨ c = 99 then "thunderstorm"
    else if c = 52 ∨ c = 54 then "drizzle"
    else "clouds"

/-! ### Daily normalizer (`parse_daily_forecast`) -/

/-- The `daily` block of an Open-Meteo response: four columnar arrays.  A
missing `daily` key or missing array is the empty list (`dict.get(key, [])`);
a JSON `null` element is `none`. -/
structure DailyData where
  time : List String
  temperature_2m_max : List (Option ℚ)
  temperature_2m_min : List (Option ℚ)
  weathercode : List (Option Int)

/-- One entry produced by `parse_daily_forecast`. -/
structure DailyPoint where
  day : String
  temperature_max : Option ℚ
  temperature_min : Option ℚ
  condition : String
deriving DecidableEq

/-- Two-digit zero-padded rendering of a number below 100. -/
def pad2 (n : Nat) : String :=
  (if n < 10 then "0" else "") ++ toString n

/-- Whether a string is one or more decimal digits. -/
def allDigits (s : String) : Bool :=
  !s.toList.isEmpty && s.toList.all Char.isDigit

/-- Numeric value of a digit string. -/
def digitsToNat (l : List Char) : Nat :=
  l.foldl (fun acc c => acc * 10 + (c.toNat - 48)) 0

/-- Split a character list at a separator character (the shape of Python
`str.split` with a one-character separator). -/
def splitOnChar (sep : Char) : List Char → List (List Char)
  | [] => [[]]
  | c :: cs =>
    let r := splitOnChar sep cs
    if c = sep then [] :: r
    else
      match r with
      | [] => [[c]]
      | g :: gs => (c :: g) :: gs

/-- Gregorian leap year. -/
def isLeap (y : Nat) : Bool :=
  (y % 4 = 0 && y % 100 ≠ 0) || y % 400 = 0

/-- Number of days in a month of a given year. -/
def daysInMonth (y m : Nat) : Nat :=
  if m = 2 then (if isLeap y then 29 else 28)
  else if m = 4 ∨ m = 6 ∨ m = 9 ∨ m = 11 then 30
  else 31

/-- Day of week by Zeller's congruence: 0 = Saturday, 1 = Sunday, ... -/
def zellerDay (y m d : Nat) : Nat :=
  let m' := if m ≤ 2 then m + 12 else m
  let y' := if m ≤ 2 then y - 1 else y
  let k := y' % 100
  let j := y' / 100
  (d + (13 * (m' + 1)) / 5 + k + k / 4 + j / 4 + 5 * j) % 7

/-- English three-letter weekday abbreviation for a Zeller index. -/
def weekdayAbbrev (h : Nat) : String :=
  match h with
  | 0 => "Sat" | 1 => "Sun" | 2 => "Mon" | 3 => "Tue"
  | 4 => "Wed" | 5 => "Thu" | 6 => "Fri" | _ => ""

/-- `datetime.strptime(s, "%Y-%m-%d")`: parse a `Y-m-d` date, validating
ranges; `none` models a `ValueError`. -/
def strptimeYmd (s : String) : Option (Nat × Nat × Nat) :=
  match splitOnChar '-' s.toList with
  | [ys, ms, ds] =>
    if (!ys.isEmpty && ys.all Char.isDigit) && (!ms.isEmpty && ms.all Char.isDigit) &&
       (!ds.isEmpty && ds.all Char.isDigit) &&
       ys.length ≤ 4 && ms.length ≤ 2 && ds.length ≤ 2 then
      let y := digitsToNat ys
      let m := digitsToNat ms
      let d := digitsToNat ds
      if 1 ≤ y ∧ y ≤ 9999 ∧ 1 ≤ m ∧ m ≤ 12 ∧ 1 ≤ d ∧ d ≤ daysInMonth y m then
        some (y, m, d)
      else none
    else none
  | _ => none

/-- The label of one daily entry (weather_api.py lines 416-421):
`strftime("%a %d")` of the parsed date, falling back to the raw string
truncated to 10 characters when parsing fails. -/
def dayLabel (dateStr : String) : String :=
  match strptimeYmd dateStr with
  | some (y, m, d) => weekdayAbbrev (zellerDay y m d) ++ " " ++ pad2 d
  | none =>
    if dateStr.toList.length ≥ 10 then (dateStr.toList.take 10).asString
    else dateStr

/-- One iteration of the loop in `parse_daily_forecast`
(weather_api.py lines 416-432). -/
def dailyEntry (d : DailyData) (i : Nat) : DailyPoint :=
  let tMax : Option ℚ := if i < d.temperature_2m_max.length then
      d.temperature_2m_max.getD i none else none
  let tMin : Option ℚ := if i < d.temperature_2m_min.length then
      d.temperature_2m_min.getD i none else none
  let code : Option Int := if i < d.weathercode.length then
      d.weathercode.getD i none else some 0
  { day := dayLabel (d.time.getD i "")
    temperature_max := tMax
    temperature_min := tMin
    condition := wmo_to_condition code }

/-- `parse_daily_forecast` (weather_api.py lines 394-436). -/
def parse_daily_forecast (d : DailyData) : List DailyPoint :=
  (List.range (min 15 d.time.length)).map (dailyEntry d)

/-! ### Hourly interpolator (`parse_hourly_forecast`) -/

/-- One element of the `list` array of a 3-hour forecast response, already
shaped (timestamp in epoch seconds, Kelvin temperature, condition text from
`weather[0].main`). -/
structure ForecastItem where
  dt : Int
  tempKelvin : ℚ
  condition : String
deriving DecidableEq

/-- A 3-hour forecast response: presence of the `list` key, its items, and
`city.timezone` (seconds east of UTC, `0` when absent). -/
structure ForecastData where
  hasList : Bool
  items : List ForecastItem
  timezoneOffset : Int
deriving DecidableEq

/-- A parsed forecast point (weather_api.py lines 282-286): local time in
hours, Celsius temperature, condition text. -/
structure Sample where
  time : ℚ
  temperature : ℚ
  condition : String
deriving DecidableEq

/-- The conversion of one forecast item to a forecast point
(weather_api.py lines 268-286): the timestamp moved to the location's
timezone and measured in hours, and the temperature moved to Celsius. -/
def toSample (tzOffset : Int) (it : ForecastItem) : Sample :=
  { time := ((it.dt + tzOffset : Int) : ℚ) / 3600
    temperature := it.tempKelvin - 273.15
    condition := it.condition }

/-- An entry of the hourly series (weather_api.py lines 336-341). -/
structure HourlyPoint where
  time : String
  hour : Int
  temperature : ℚ
  condition : String
deriving DecidableEq

/-- Building one hourly entry for slot `i`: the target hour is
`current_hour + i`, whose hour-of-day is `(currentHour + i) mod 24` and whose
`strftime("%H:%M")` string is that hour zero-padded with minutes `00`. -/
def mkHourlyPoint (currentHour : Int) (i : Nat) (temp : ℚ) (cond : String) :
    HourlyPoint :=
  let h : Int := (currentHour + (i : Int)) % 24
  { time := pad2 h.toNat ++ ":00"
    hour := h
    temperature := temp
    condition := cond }

/-- The bracketing scan (weather_api.py lines 296-307): walk the forecast
points in order; a point at or before the target becomes `prev` and its
successor (when it has one) becomes `next`; the first point after the target
becomes `next` only when `next` is still unset, and the walk stops there. -/
def bracketScan (target : ℚ) :
    List Sample → Option Sample → Option Sample → Option Sample × Option Sample
  | [], prev, nxt => (prev, nxt)
  | p :: rest, prev, nxt =>
    if p.time ≤ target then
      bracketScan target rest (some p) (if rest.isEmpty then nxt else rest.head?)
    else
      (prev, some (nxt.getD p))

/-- Linear temperature interpolation (weather_api.py lines 317-324): when the
bracketing points are in strictly increasing time order, move from `prev`'s
temperature toward `next`'s by the fractional position of the target;
otherwise keep `prev`'s temperature. -/
def interpolateTemp (p n : Sample) (target : ℚ) : ℚ :=
  let timeDiff := n.time - p.time
  if 0 < timeDiff then
    p.temperature + (n.temperature - p.temperature) * ((target - p.time) / timeDiff)
  else
    p.temperature

/-- Condition selection (weather_api.py lines 326-330): `prev`'s condition
when the target sits strictly in the first half of the bracket, else
`next`'s. -/
def resolveCondition (hoursFromPrev timeDiff : ℚ) (p n : Sample) : String :=
  if hoursFromPrev < timeDiff / 2 then p.condition else n.condition

/-- The body of one iteration of the 24-slot loop
(weather_api.py lines 292-341).  The `Option ℚ` argument and result model the
Python local variable `hours_from_prev`, which persists across iterations and
is read before being assigned on the `time_diff <= 0` path (`none` means
"never assigned": reading it raises `NameError`).  The one-sided branches
read the nonexistent key `point['icon']`, raising `KeyError`. -/
def hourStep (currentHour : Int) (pts : List Sample) (hfp : Option ℚ)
    (i : Nat) : Except PyErr (HourlyPoint × Option ℚ) :=
  let target : ℚ := (currentHour : ℚ) + (i : ℚ)
  match bracketScan target pts none none with
  | (some _, none) => .error .keyError
  | (none, some _) => .error .keyError
  | (some p, some n) =>
    let timeDiff := n.time - p.time
    if 0 < timeDiff then
      let hoursFromPrev := target - p.time
      .ok (mkHourlyPoint currentHour i (interpolateTemp p n target)
             (resolveCondition hoursFromPrev timeDiff p n),
           some hoursFromPrev)
    else
      match hfp with
      | none => .error .nameError
      | some h =>
        .ok (mkHourlyPoint currentHour i p.temperature
               (resolveCondition h timeDiff p n), some h)
  | (none, none) => .ok (mkHourlyPoint currentHour i 20 "Unknown", hfp)

/-- The 24-slot loop: `n` slots remain, `i` is the current slot index. -/
def hourlyLoop (currentHour : Int) (pts : List Sample) :
    Nat → Nat → Option ℚ → Except PyErr (List HourlyPoint)
  | 0, _, _ => .ok []
  | n + 1, i, hfp =>
    match hourStep currentHour pts hfp i with
    | .error e => .error e
    | .ok (pt, hfp') =>
      match hourlyLoop currentHour pts n (i + 1) hfp' with
      | .error e => .error e
      | .ok l => .ok (pt :: l)

/-- `parse_hourly_forecast` (weather_api.py lines 234-348), with the current
local hour passed in (`datetime.now` truncated to the hour).  A missing or
empty `list` yields the empty series; `KeyError` during the loop is caught by
the enclosing handler and also yields the empty series; `NameError` is not
caught and escapes. -/
def parse_hourly_forecast (currentHour : Int) (fd : ForecastData) :
    Except PyErr (List HourlyPoint) :=
  if fd.hasList = false then .ok []
  else
    match fd.items with
    | [] => .ok []
    | item0 :: restItems =>
      match (item0 :: restItems).take 8 with
      | [] => .ok []
      | fi0 :: fiRest =>
        match hourlyLoop currentHour
            ((fi0 :: fiRest).map (toSample fd.timezoneOffset)) 24 0 none with
        | .ok l => .ok l
        | .error .keyError => .ok []
        | .error e => .error e

/-! ### Current-conditions parser and orchestrator -/

/-- One element of the `weather` array of a current-conditions response. -/
structure WItem where
  main : String
  description : String
deriving DecidableEq

/-- The `main` block of a current-conditions response. -/
structure MainBlock where
  temp : ℚ
  pressure : Int
  humidity : Int
deriving DecidableEq

/-- The `sys` block: sunrise and sunset epoch seconds, either possibly
absent. -/
structure SysBlock where
  sunrise : Option Int
  sunset : Option Int
deriving DecidableEq

/-- The `coord` block: latitude and longitude, either possibly absent. -/
structure Coord where
  lat : Option ℚ
  lon : Option ℚ
deriving DecidableEq

/-- A current-conditions response; each `Option` marks a key that may be
missing from the payload. -/
structure CurrentData where
  weather : Option (List WItem)
  main : Option MainBlock
  sys : Option SysBlock
  timezone : Option Int
  visibility : Option Int
  coord : Option Coord
deriving DecidableEq

/-- Python string whitespace. -/
def isSpaceChar (c : Char) : Bool :=
  c = ' ' || c = '\t' || c = '\n' || c = '\r' || c.toNat = 11 || c.toNat = 12

/-- Python `str.strip()`: leading and trailing whitespace removed. -/
def pyStrip (s : String) : String :=
  ((s.toList.dropWhile isSpaceChar).reverse.dropWhile isSpaceChar).reverse.asString

/-- Python truthiness of an optional integer: `None` and `0` are falsy. -/
def truthyInt (o : Option Int) : Bool :=
  match o with
  | none => false
  | some v => v ≠ 0

/-- Whether the second character list starts the first. -/
def startsWithChars : List Char → List Char → Bool
  | _, [] => true
  | [], _ :: _ => false
  | c :: cs, p :: ps => c = p && startsWithChars cs ps

/-- Whether the first character list occurs inside the second. -/
def containsChars (pat : List Char) : List Char → Bool
  | [] => pat.isEmpty
  | c :: cs => startsWithChars (c :: cs) pat || containsChars pat cs

/-- Python `pat in s` substring containment. -/
def strContains (s pat : String) : Bool :=
  containsChars pat.toList s.toList

/-- `calculate_uv_index_estimate` (weather_api.py lines 163-200), with the
clock passed in: `nowTs` is `datetime.now().timestamp()` and `nowHour` is
`datetime.now().hour`.  Note `if not sunrise or not sunset` follows Python
truthiness, so a `0` timestamp also yields "N/A". -/
def calculate_uv_index_estimate (nowTs : ℚ) (nowHour : Int)
    (sunrise sunset : Option Int) (weather_condition : String) : String :=
  if truthyInt sunrise = false ∨ truthyInt sunset = false then "N/A"
  else
    let sr : Int := sunrise.getD 0
    let ss : Int := sunset.getD 0
    if (sr : ℚ) ≤ nowTs ∧ nowTs ≤ (ss : ℚ) then
      if 10 ≤ nowHour ∧ nowHour ≤ 16 then
        if strContains weather_condition "Clear" ∨
           strContains weather_condition "Sun" then "High (7-9)"
        else if strContains weather_condition "Cloud" then "Moderate (4-6)"
        else "Low (2-4)"
      else if (6 ≤ nowHour ∧ nowHour < 10) ∨ (16 < nowHour ∧ nowHour ≤ 20) then
        "Moderate (3-5)"
      else "Low (1-3)"
    else "None (Night)"

/-- The record built by `parse_weather_data`; `sunrise`, `sunset` and
`timezoneOff` are `none` when the `sys` key is absent (the keys are then not
set, and every later read uses `dict.get`). -/
structure ParsedWeather where
  weather_condition : String
  description : String
  temperature : Int
  pressure : Int
  humidity : Int
  sunrise : Option Int
  sunset : Option Int
  timezoneOff : Option Int
  visibility : Option ℚ
  uv_index : String
deriving DecidableEq

/-- `parse_weather_data` (weather_api.py lines 97-160).  `uvFetch` stands for
`fetch_uv_index_from_openmeteo` (the network oracle); a missing `weather` or
`main` key, or an empty `weather` array, raises inside the `try` block and is
caught, giving `none`. -/
def parse_weather_data (nowTs : ℚ) (nowHour : Int)
    (uvFetch : ℚ → ℚ → Option ℚ) (data : CurrentData) : Option ParsedWeather :=
  match data.weather, data.main with
  | some (w :: _), some m =>
    let sunrise : Option Int := match data.sys with
      | some s => s.sunrise
      | none => none
    let sunset : Option Int := match data.sys with
      | some s => s.sunset
      | none => none
    let timezoneOff : Option Int := match data.sys with
      | some _ => some (data.timezone.getD 0)
      | none => none
    let visibility : Option ℚ := match data.visibility with
      | some v => some ((v : ℚ) / 1000)
      | none => none
    let uvDisplay : String := match data.coord with
      | some c =>
        match c.lat, c.lon with
        | some la, some lo => uv_index_to_display (uvFetch la lo)
        | _, _ => "N/A"
      | none => "N/A"
    let uvDisplay : String :=
      if uvDisplay = "N/A" then
        calculate_uv_index_estimate nowTs nowHour sunrise sunset w.main
      else uvDisplay
    some { weather_condition := w.main
           description := w.description
           temperature := pyTrunc (m.temp - 273.15)
           pressure := m.pressure
           humidity := m.humidity
           sunrise := sunrise
           sunset := sunset
           timezoneOff := timezoneOff
           visibility := visibility
           uv_index := uvDisplay }
  | _, _ => none

/-- The merged result of `get_weather_info`: the parsed current conditions
plus the two series added to the same dictionary. -/
structure WeatherSnapshot where
  current : ParsedWeather
  hourly_forecast : List HourlyPoint
  daily_forecast : List DailyPoint
deriving DecidableEq

/-- `get_weather_info` (weather_api.py lines 439-477).  The three network
responses are passed as oracles (`none` = the fetch failed and was absorbed
inside the fetcher).  An empty/whitespace city or a failed anchor fetch gives
`.ok none`; a current payload that `parse_weather_data` rejects makes the
next line `parsed['hourly_forecast'] = ...` raise an uncaught `TypeError`
(`parsed` is Python `None`); a `NameError` escaping `parse_hourly_forecast`
also escapes here. -/
def get_weather_info (city : String) (anchor : Option CurrentData)
    (forecastResp : Option ForecastData) (dailyResp : Option DailyData)
    (uvFetch : ℚ → ℚ → Option ℚ) (nowTs : ℚ) (nowHour : Int)
    (currentHour : Int) : Except PyErr (Option WeatherSnapshot) :=
  if pyStrip city = "" then .ok none
  else
    match anchor with
    | none => .ok none
    | some data =>
      match parse_weather_data nowTs nowHour uvFetch data with
      | none => .error .typeError
      | some parsed =>
        let hourlyE : Except PyErr (List HourlyPoint) :=
          match forecastResp with
          | some fd => parse_hourly_forecast currentHour fd
          | none => .ok []
        match hourlyE with
        | .error e => .error e
        | .ok hourly =>
          let daily : List DailyPoint :=
            match data.coord with
            | some c =>
              match c.lat, c.lon with
              | some _, some _ =>
                match dailyResp with
                | some dd => parse_daily_forecast dd
                | none => []
              | _, _ => []
            | none => []
          .ok (some { current := parsed
                      hourly_forecast := hourly
                      daily_forecast := daily })

/-! ### Specification-side definitions

These two definitions are written from the specification's words, to be
compared against the source-side definitions above. -/

/-- The weather-code table exactly as the specification lists it:
0 clear; 1,2,3 clouds; 45,48 fog; the rain group; 52,54 drizzle; the snow
group; 95,96,99 thunderstorm; every other code clouds. -/
def wmoSpecTable (c : Int) : String :=
  if c = 0 then "clear"
  else if c = 1 ∨ c = 2 ∨ c = 3 then "clouds"
  else if c = 45 ∨ c = 48 then "fog"
  else if c = 51 ∨ c = 53 ∨ c = 55 ∨ c = 56 ∨ c = 57 ∨ c = 61 ∨ c = 63 ∨
          c = 65 ∨ c = 66 ∨ c = 67 ∨ c = 80 ∨ c = 81 ∨ c = 82 then "rain"
  else if c = 52 ∨ c = 54 then "drizzle"
  else if c = 71 ∨ c = 73 ∨ c = 75 ∨ c = 77 ∨ c = 85 ∨ c = 86 then "snow"
  else if c = 95 ∨ c = 96 ∨ c = 99 then "thunderstorm"
  else "clouds"

/-- The WHO band as the specification characterises it, by disjoint
intervals: Low for `uv ≤ 2`, Moderate for `2 < uv ≤ 5`, High for
`5 < uv ≤ 7`, Very High for `7 < uv ≤ 10`, Extreme otherwise. -/
def whoBand (uv : ℚ) : String :=
  if uv ≤ 2 then "Low"
  else if 2 < uv ∧ uv ≤ 5 then "Moderate"
  else if 5 < uv ∧ uv ≤ 7 then "High"
  else if 7 < uv ∧ uv ≤ 10 then "Very High"
  else "Extreme"

/-! ### Theorems -/

/-- Any successful `hourStep` labels its point with the target hour-of-day
`(currentHour + i) mod 24`. -/
theorem hourStep_hour (currentHour : Int) (pts : List Sample) (hfp : Option ℚ)
    (i : Nat) (pt : HourlyPoint) (s : Option ℚ)
    (h : hourStep currentHour pts hfp i = .ok (pt, s)) :
    pt.hour = (currentHour + (i : Int)) % 24 := by
  simp only [hourStep] at h
  rcases hbs : bracketScan ((currentHour : ℚ) + (i : ℚ)) pts none none with ⟨opv, onv⟩
  rw [hbs] at h
  cases opv <;> cases onv <;> (try repeat' split at h) <;>
    first
      | (simp only [Except.ok.injEq, Prod.mk.injEq] at h
         rw [← h.1]
         rfl)
      | simp at h

/-- A successful run of the hourly loop yields one point per slot, with
consecutive hour-of-day labels. -/
theorem hourlyLoop_hours (currentHour : Int) (pts : List Sample) :
    ∀ (n i : Nat) (hfp : Option ℚ) (l : List HourlyPoint),
      hourlyLoop currentHour pts n i hfp = .ok l →
      l.map HourlyPoint.hour =
        (List.range' i n).map (fun k => (currentHour + (k : Int)) % 24) := by
  intro n
  induction n with
  | zero =>
    intro i hfp l h
    simp only [hourlyLoop, Except.ok.injEq] at h
    subst h
    simp
  | succ n ih =>
    intro i hfp l h
    unfold hourlyLoop at h
    split at h
    · exact absurd h (by simp)
    · rename_i pt hfp' hstep
      split at h
      · exact absurd h (by simp)
      · rename_i l' hloop
        simp only [Except.ok.injEq] at h
        subst h
        have hh := hourStep_hour currentHour pts hfp i pt hfp' hstep
        have ht := ih (i + 1) hfp' l' hloop
        simp [List.range'_succ, hh, ht]

/-- A successful `parse_hourly_forecast` result is either the empty series
or a full 24-slot series with consecutive hour-of-day labels. -/
theorem parse_hourly_ok_shape (currentHour : Int) (fd : ForecastData)
    (l : List HourlyPoint)
    (h : parse_hourly_forecast currentHour fd = .ok l) :
    l = [] ∨ l.map HourlyPoint.hour =
      (List.range 24).map (fun k => (currentHour + (k : Int)) % 24) := by
  unfold parse_hourly_forecast at h
  split at h
  · left; simpa using h.symm
  · split at h
    · left; simpa using h.symm
    · split at h
      · left; simpa using h.symm
      · split at h
        · rename_i l' hloop
          simp only [Except.ok.injEq] at h
          subst h
          right
          rw [List.range_eq_range']
          exact hourlyLoop_hours currentHour _ 24 0 none l' hloop
        · left; simpa using h.symm
        · exact absurd h (by simp)

/-- C1 (amended): a missing or empty sample list yields the empty series,
and in general the hourly series is either empty or has exactly the 24
points with `hour_of_day` equal to `(current_hour + i) mod 24` for
`i in 0..23` (with the unset-variable fault of the source surfacing as an
escaping exception on some inputs); it is never a nonempty series of fewer
than 24 points, and unavailability does not degrade to a flat 24-point
fallback but to the empty series. -/
theorem hourly_series_24_or_empty (currentHour : Int) (fd : ForecastData) :
    (parse_hourly_forecast currentHour { fd with hasList := false } = .ok [] ∧
     parse_hourly_forecast currentHour { fd with items := [] } = .ok []) ∧
    ((∃ e, parse_hourly_forecast currentHour fd = .error e) ∨
     parse_hourly_forecast currentHour fd = .ok [] ∨
     (∃ l, parse_hourly_forecast currentHour fd = .ok l ∧
        l.map HourlyPoint.hour =
          (List.range 24).map (fun k => (currentHour + (k : Int)) % 24))) := by
  refine ⟨⟨by simp [parse_hourly_forecast], ?_⟩, ?_⟩
  · by_cases hb : fd.hasList = false <;> simp [parse_hourly_forecast, hb]
  · cases hres : parse_hourly_forecast currentHour fd with
    | error e => exact Or.inl ⟨e, rfl⟩
    | ok l =>
      rcases parse_hourly_ok_shape currentHour fd l hres with hnil | hmap
      · subst hnil; exact Or.inr (Or.inl rfl)
      · exact Or.inr (Or.inr ⟨l, rfl, hmap⟩)

/-- C1 counterexample: a forecast response without the `list` key (and one
with an empty `list`) produces a series of 0 points, not 24 and not a flat
fallback series. -/
theorem hourly_series_empty_input_zero_points :
    (parse_hourly_forecast 0 ⟨false, [], 0⟩).map List.length = .ok 0 ∧
    (parse_hourly_forecast 0 ⟨true, [], 0⟩).map List.length = .ok 0 ∧
    (0 : Nat) ≠ 24 :=
  ⟨rfl, rfl, by decide⟩

/-- On a two-sample list that brackets the target, the scan returns exactly
that bracketing pair. -/
theorem bracketScan_pair (target : ℚ) (p n : Sample)
    (hp : p.time ≤ target) (hn : ¬ n.time ≤ target) :
    bracketScan target [p, n] none none = (some p, some n) := by
  unfold bracketScan
  rw [if_pos hp]
  unfold bracketScan
  rw [if_neg hn]
  rfl

/-- C5 (amended): when the target lies exactly at the midpoint of the
bracketing pair, the interpolator resolves the condition to `next`'s
condition (the strict `<` in the source sends the tie to `next`, not
`prev`). -/
theorem midpoint_condition_resolves_to_next (currentHour : Int) (i : Nat)
    (p n : Sample) (hfp : Option ℚ)
    (hp : p.time ≤ (currentHour : ℚ) + (i : ℚ))
    (hn : (currentHour : ℚ) + (i : ℚ) < n.time)
    (hmid : (currentHour : ℚ) + (i : ℚ) - p.time = (n.time - p.time) / 2) :
    ∃ pt s, hourStep currentHour [p, n] hfp i = .ok (pt, s) ∧
      pt.condition = n.condition := by
  have htd : 0 < n.time - p.time := by linarith
  have hbs := bracketScan_pair ((currentHour : ℚ) + (i : ℚ)) p n hp (not_le.mpr hn)
  refine ⟨mkHourlyPoint currentHour i
      (interpolateTemp p n ((currentHour : ℚ) + (i : ℚ)))
      (resolveCondition ((currentHour : ℚ) + (i : ℚ) - p.time)
        (n.time - p.time) p n),
    some ((currentHour : ℚ) + (i : ℚ) - p.time), ?_, ?_⟩
  · simp only [hourStep, hbs, if_pos htd]
  · simp [mkHourlyPoint, resolveCondition, hmid]

/-- Witness for C5 (amended) with `prev = (0, 10, "Rain")`,
`next = (2, 16, "Clear")`, `current_hour = 0`, slot `i = 1` (so the target
hour 1 is the exact midpoint). -/
theorem midpoint_condition_resolves_to_next_witness :
    ∃ pt s, hourStep 0 [⟨0, 10, "Rain"⟩, ⟨2, 16, "Clear"⟩] none 1 =
        .ok (pt, s) ∧
      pt.condition = (⟨2, 16, "Clear"⟩ : Sample).condition :=
  midpoint_condition_resolves_to_next 0 1 ⟨0, 10, "Rain"⟩ ⟨2, 16, "Clear"⟩ none
    (by norm_num) (by norm_num) (by norm_num)

/-- C5 counterexample: samples at local hours 0 (condition "Rain") and 2
(condition "Clear"); the slot for target hour 1 — the exact midpoint — gets
condition "Clear" (`next`'s), not `prev`'s "Rain" as claimed. -/
theorem midpoint_condition_is_next_not_prev :
    (parse_hourly_forecast 0
        ⟨true, [⟨0, 283.15, "Rain"⟩, ⟨7200, 289.15, "Clear"⟩], 0⟩).map
      (fun l => (l.get? 1).map HourlyPoint.condition) = .ok (some "Clear") ∧
    "Clear" ≠ "Rain" := by
  constructor
  · norm_num [parse_hourly_forecast, hourlyLoop, hourStep, bracketScan,
      toSample, mkHourlyPoint, interpolateTemp, resolveCondition]
    rfl
  · decide

/-- C6 evaluation: a target hour bracketed on one side only makes the source
read the nonexistent key `icon` (and it never assigns `condition` there), so
a `KeyError` is raised and caught by the enclosing handler — the series
comes back empty instead of containing points built verbatim from the lone
sample.  First input: a single sample at local hour 5, every target before
it; second input: a single sample at local hour 0, every target at or after
it. -/
theorem one_sided_bracket_keyerror_empty_series :
    parse_hourly_forecast 0 ⟨true, [⟨18000, 283.15, "Rain"⟩], 0⟩ = .ok [] ∧
    parse_hourly_forecast 0 ⟨true, [⟨0, 283.15, "Rain"⟩], 0⟩ = .ok [] := by
  constructor <;>
    norm_num [parse_hourly_forecast, hourlyLoop, hourStep, bracketScan,
      toSample]

/-- C2 evaluation: a failed anchor fetch gives the absent overall result,
but when the anchor fetch succeeds with a payload whose `weather` array is
empty and the hourly and daily fetches fail, `get_weather_info` raises an
uncaught `TypeError` (assigning into the `None` returned by
`parse_weather_data`) instead of returning a result with empty series. -/
theorem aggregator_aborts_on_malformed_anchor :
    get_weather_info "London" none none none (fun _ _ => none) 0 0 0 =
      .ok none ∧
    get_weather_info "London"
        (some ⟨some [], some ⟨293.15, 1013, 50⟩, none, none, none, none⟩)
        none none (fun _ _ => none) 0 0 0 = .error .typeError :=
  ⟨rfl, rfl⟩

/-- C3 evaluation: a current-conditions payload missing the `weather` key is
rejected by `parse_weather_data` (which absorbs the fault into `None`), but
`get_weather_info` then raises an uncaught `TypeError` that crosses the core
boundary instead of producing an absent result. -/
theorem malformed_current_payload_raises_typeerror :
    parse_weather_data 0 0 (fun _ _ => none)
        ⟨none, some ⟨293.15, 1013, 50⟩, none, none, none, none⟩ = none ∧
    get_weather_info "Paris"
        (some ⟨none, some ⟨293.15, 1013, 50⟩, none, none, none, none⟩)
        none none (fun _ _ => none) 0 0 0 = .error .typeError :=
  ⟨rfl, rfl⟩

/-- C4: for bracketing samples `prev = (t0, T0)` and `next = (t1, T1)` with
`t0 < t1` and any target in `[t0, t1]`, the interpolated temperature equals
`T0 + (T1 - T0) * (target - t0) / (t1 - t0)` and lies between `min T0 T1`
and `max T0 T1` inclusive. -/
theorem interpolation_formula_and_bounds (p n : Sample) (target : ℚ)
    (hlt : p.time < n.time) (h0 : p.time ≤ target) (h1 : target ≤ n.time) :
    interpolateTemp p n target =
      p.temperature +
        (n.temperature - p.temperature) * (target - p.time) / (n.time - p.time) ∧
    min p.temperature n.temperature ≤ interpolateTemp p n target ∧
    interpolateTemp p n target ≤ max p.temperature n.temperature := by
  have hd : 0 < n.time - p.time := by linarith
  have heq : interpolateTemp p n target =
      p.temperature + (n.temperature - p.temperature) *
        ((target - p.time) / (n.time - p.time)) := by
    unfold interpolateTemp
    rw [if_pos hd]
  have hr0 : 0 ≤ (target - p.time) / (n.time - p.time) :=
    div_nonneg (by linarith) hd.le
  have hr1 : (target - p.time) / (n.time - p.time) ≤ 1 := by
    rw [div_le_one hd]; linarith
  refine ⟨by rw [heq, mul_div_assoc], ?_, ?_⟩
  · rcases le_total p.temperature n.temperature with hle | hle
    · rw [min_eq_left hle, heq]
      nlinarith [mul_nonneg (sub_nonneg.mpr hle) hr0]
    · rw [min_eq_right hle, heq]
      nlinarith [mul_nonneg (sub_nonneg.mpr hle) (sub_nonneg.mpr hr1)]
  · rcases le_total p.temperature n.temperature with hle | hle
    · rw [max_eq_right hle, heq]
      nlinarith [mul_nonneg (sub_nonneg.mpr hle) (sub_nonneg.mpr hr1)]
    · rw [max_eq_left hle, heq]
      nlinarith [mul_nonneg (sub_nonneg.mpr hle) hr0]

/-- Witness for C4 at `prev = (0, 10)`, `next = (3, 16)`, `target = 1`. -/
theorem interpolation_formula_and_bounds_witness :
    interpolateTemp ⟨0, 10, "Rain"⟩ ⟨3, 16, "Clear"⟩ 1 =
      10 + (16 - 10) * (1 - 0) / (3 - 0) ∧
    min (10 : ℚ) 16 ≤ interpolateTemp ⟨0, 10, "Rain"⟩ ⟨3, 16, "Clear"⟩ 1 ∧
    interpolateTemp ⟨0, 10, "Rain"⟩ ⟨3, 16, "Clear"⟩ 1 ≤ max (10 : ℚ) 16 :=
  interpolation_formula_and_bounds ⟨0, 10, "Rain"⟩ ⟨3, 16, "Clear"⟩ 1
    (by norm_num) (by norm_num) (by norm_num)

/-- C7: the weather-code mapping is total on `[-10, 120]` and agrees with the
fixed table of the specification (unmatched codes map to clouds). -/
theorem wmo_mapping_total_matches_table (c : Int)
    (hlo : -10 ≤ c) (hhi : c ≤ 120) :
    wmo_to_condition (some c) = wmoSpecTable c := by
  interval_cases c <;> rfl

/-- Witness for C7 at code 52 (the drizzle/rain boundary). -/
theorem wmo_mapping_total_matches_table_witness :
    wmo_to_condition (some 52) = wmoSpecTable 52 :=
  wmo_mapping_total_matches_table 52 (by decide) (by decide)

/-- C9: the daily normalizer returns exactly `min 15 (number of dates)`
entries, and in particular never more than 15. -/
theorem daily_normalizer_count (d : DailyData) :
    (parse_daily_forecast d).length = min 15 d.time.length ∧
    (parse_daily_forecast d).length ≤ 15 := by
  constructor
  · simp [parse_daily_forecast]
  · simp [parse_daily_forecast]

/-- C8: for every non-absent UV value the display string is the value to one
decimal followed by the WHO band (characterised by the specification's
disjoint intervals) in parentheses; in particular 2.0 is Low, 2.01 Moderate,
5.0 Moderate, 7.01 Very High and 10.01 Extreme. -/
theorem uv_display_format_and_bands :
    (∀ uv : ℚ, uv_index_to_display (some uv) =
      formatOneDecimal uv ++ " (" ++ whoBand uv ++ ")") ∧
    uv_index_to_display (some 2) = "2.0 (Low)" ∧
    uv_index_to_display (some (201 / 100)) = "2.0 (Moderate)" ∧
    uv_index_to_display (some 5) = "5.0 (Moderate)" ∧
    uv_index_to_display (some (701 / 100)) = "7.0 (Very High)" ∧
    uv_index_to_display (some (1001 / 100)) = "10.0 (Extreme)" := by
  refine ⟨fun uv => ?_, ?_, ?_, ?_, ?_, ?_⟩
  · by_cases h2 : uv ≤ 2
    · simp [uv_index_to_display, whoBand, h2]
    · by_cases h5 : uv ≤ 5
      · simp [uv_index_to_display, whoBand, h2, h5, not_le.mp h2]
      · by_cases h7 : uv ≤ 7
        · simp [uv_index_to_display, whoBand, h2, h5, h7, not_le.mp h5]
        · by_cases h10 : uv ≤ 10
          · simp [uv_index_to_display, whoBand, h2, h5, h7, h10, not_le.mp h7]
          · simp [uv_index_to_display, whoBand, h2, h5, h7, h10]
  all_goals
    norm_num [uv_index_to_display, formatOneDecimal, roundHalfEven, Rat.floor]
  all_goals rfl

/-- C10: an entry of the daily normalizer whose index is out of range for the
max-temperature, min-temperature or weather-code array carries the absent
value for that field (for the code, the same condition as an absent code). -/
theorem daily_normalizer_out_of_range_absent (d : DailyData) (i : Nat)
    (e : DailyPoint) (h : (parse_daily_forecast d).get? i = some e) :
    (d.temperature_2m_max.length ≤ i → e.temperature_max = none) ∧
    (d.temperature_2m_min.length ≤ i → e.temperature_min = none) ∧
    (d.weathercode.length ≤ i → e.condition = wmo_to_condition none) := by
  have he : e = dailyEntry d i := by
    by_cases hi : i < min 15 d.time.length
    · rw [parse_daily_forecast, List.get?_map, List.get?_range hi] at h
      simpa using h.symm
    · rw [parse_daily_forecast, List.get?_map] at h
      rw [List.get?_eq_none.mpr (by simpa using not_lt.mp hi)] at h
      simp at h
  subst he
  refine ⟨fun hmax => ?_, fun hmin => ?_, fun hcode => ?_⟩
  · simp [dailyEntry, if_neg (not_lt.mpr hmax)]
  · simp [dailyEntry, if_neg (not_lt.mpr hmin)]
  · simp [dailyEntry, if_neg (not_lt.mpr hcode)]
    rfl

/-- Witness for C10: two dates but a single max temperature, no min
temperatures and a single weather code; entry 1 has all three fields at
their absent value. -/
theorem daily_normalizer_out_of_range_absent_witness :
    (dailyEntry ⟨["2026-01-01", "2026-01-02"], [some 5], [], [some 61]⟩ 1).temperature_max
        = none ∧
    (dailyEntry ⟨["2026-01-01", "2026-01-02"], [some 5], [], [some 61]⟩ 1).temperature_min
        = none ∧
    (dailyEntry ⟨["2026-01-01", "2026-01-02"], [some 5], [], [some 61]⟩ 1).condition
        = wmo_to_condition none := by
  have h := daily_normalizer_out_of_range_absent
    ⟨["2026-01-01", "2026-01-02"], [some 5], [], [some 61]⟩ 1
    (dailyEntry ⟨["2026-01-01", "2026-01-02"], [some 5], [], [some 61]⟩ 1)
    (by rfl)
  exact ⟨h.1 (by decide), h.2.1 (by decide), h.2.2 (by decide)⟩

end WeatherApp
